import Mathlib

/-!
Verification of the FastAPI Kubernetes testing application (src/main.py):
a shallow embedding of the credential and token service and of the request
metrics middleware, followed by theorems about the claims of the design
specification.

External collaborators (the bcrypt library, the python-jose JWT library, the
FastAPI HTTPBearer extractor) are modelled by their documented contracts;
everything else is translated directly from src/main.py.
-/

namespace K8sTest

/-- Configuration constant from src/main.py line 34 (default value of the
SECRET_KEY environment variable). -/
def SECRET_KEY : String := "your-secret-key-change-this-in-production"

/-- Configuration constant from src/main.py line 35. -/
def ALGORITHM : String := "HS256"

/-- Configuration constant from src/main.py line 36, in minutes. -/
def ACCESS_TOKEN_EXPIRE_MINUTES : Nat := 30

/-- Model of a bcrypt hash string. The bcrypt library is external; its
contract is that checkpw succeeds exactly when the presented password equals
the password that was hashed, the salt only randomising the encoding. The
model keeps the salt and the committed password as fields. -/
structure BcryptHash where
  salt : String
  pw : String
deriving DecidableEq, Repr

/-- Model of bcrypt.hashpw (external library contract). -/
def bcrypt_hashpw (password : String) (salt : String) : BcryptHash :=
  { salt := salt, pw := password }

/-- Model of bcrypt.checkpw (external library contract): constant-time
comparison of the presented password against the hash. -/
def bcrypt_checkpw (password : String) (hashed : BcryptHash) : Bool :=
  password == hashed.pw

/-- Model of bcrypt.gensalt in the process that built the directory: one
fresh random salt, opaque to everything else. -/
def bcrypt_gensalt : String := "fresh-random-salt"

/-- Pydantic model User (src/main.py lines 62-64): the externally visible
user value, carrying only username and optional email. -/
structure User where
  username : String
  email : Option String
deriving DecidableEq, Repr

/-- Pydantic model UserInDB (src/main.py lines 67-68): User plus the stored
password hash. -/
structure UserInDB extends User where
  hashed_password : BcryptHash
deriving DecidableEq, Repr

/-- The single seeded user record of the mock directory. -/
def testuser_record : UserInDB :=
  { username := "testuser"
    email := some "test@example.com"
    hashed_password := bcrypt_hashpw "testpassword" bcrypt_gensalt }

/-- The mock user database (src/main.py lines 101-109): a single record for
testuser, hashed at process start. -/
def fake_users_db : List (String × UserInDB) :=
  [("testuser", testuser_record)]

/-- verify_password (src/main.py lines 112-116). -/
def verify_password (plain_password : String) (hashed_password : BcryptHash) : Bool :=
  bcrypt_checkpw plain_password hashed_password

/-- get_user (src/main.py lines 124-128). The global fake_users_db is passed
explicitly, as is standard when embedding module-level state. -/
def get_user (db : List (String × UserInDB)) (username : String) : Option UserInDB :=
  db.lookup username

/-- authenticate_user (src/main.py lines 131-135). -/
def authenticate_user (db : List (String × UserInDB)) (username password : String) :
    Option UserInDB :=
  match get_user db username with
  | none => none
  | some user => if verify_password password user.hashed_password then some user else none

/-- The claims dictionary of a JWT as used by this application: the sub claim
(absent, null, or a string), the exp claim (absent or an absolute timestamp in
seconds), and any other entries, which no code path consults. -/
structure Claims where
  sub : Option (Option String)
  exp : Option Nat
  extra : List (String × String)
deriving DecidableEq, Repr

/-- Model of an encoded JWT (python-jose, external library contract): a well
formed token records its claims, the secret it was signed with and the
algorithm; any other presented string is malformed. -/
inductive Token where
  | jwt (claims : Claims) (secret : String) (alg : String)
  | malformed (raw : String)
deriving DecidableEq, Repr

/-- Model of jose.JWTError. -/
inductive JWTError where
  | invalid
  | expiredSignature
deriving DecidableEq, Repr

/-- Model of jose.jwt.encode (external library contract). -/
def jwt_encode (claims : Claims) (secret : String) (alg : String) : Token :=
  Token.jwt claims secret alg

/-- Model of jose.jwt.decode (external library contract): the signature
verifies exactly when the token was signed with the given secret and an
accepted algorithm; when an exp claim is present it must not lie strictly in
the past at the moment of decoding. -/
def jwt_decode (tok : Token) (secret : String) (algs : List String) (now : Nat) :
    Except JWTError Claims :=
  match tok with
  | Token.malformed _ => Except.error JWTError.invalid
  | Token.jwt claims sig alg =>
    if sig == secret && algs.contains alg then
      match claims.exp with
      | some e => if e < now then Except.error JWTError.expiredSignature else Except.ok claims
      | none => Except.ok claims
    else Except.error JWTError.invalid

/-- create_access_token (src/main.py lines 138-146). The Python guard is
truthiness of the timedelta, so an explicit zero delta falls back to the
15-minute default exactly as an absent one does; `now` is the issuance
instant. -/
def create_access_token (data : Claims) (expires_delta : Option Nat) (now : Nat) : Token :=
  let expire :=
    match expires_delta with
    | some d => if d == 0 then now + 15 * 60 else now + d
    | none => now + 15 * 60
  jwt_encode { data with exp := some expire } SECRET_KEY ALGORITHM

/-- fastapi.HTTPException as far as this application uses it. -/
structure HTTPExc where
  status_code : Nat
  detail : String
  headers : List (String × String)
deriving DecidableEq, Repr

/-- The single exception raised for every token-verification failure
(src/main.py lines 152-156). -/
def credentials_exception : HTTPExc :=
  { status_code := 401
    detail := "Could not validate credentials"
    headers := [("WWW-Authenticate", "Bearer")] }

/-- get_current_user (src/main.py lines 149-169): decode and verify the
bearer token, read the sub claim (payload.get collapses an absent key and an
explicit null), look the user up, and strip the record down to User. -/
def get_current_user (db : List (String × UserInDB)) (token : Token) (now : Nat) :
    Except HTTPExc User :=
  match jwt_decode token SECRET_KEY [ALGORITHM] now with
  | Except.error _ => Except.error credentials_exception
  | Except.ok payload =>
    match payload.sub with
    | none => Except.error credentials_exception
    | some none => Except.error credentials_exception
    | some (some username) =>
      match get_user db username with
      | none => Except.error credentials_exception
      | some user => Except.ok { username := user.username, email := user.email }

/-- Model of the fastapi.security.HTTPBearer extractor instantiated at
src/main.py line 42 (external framework contract): with no Authorization
header it rejects the request with 403 before any dependency of the route
runs. -/
def not_authenticated_exception : HTTPExc :=
  { status_code := 403, detail := "Not authenticated", headers := [] }

/-- A protected route as assembled by FastAPI (src/main.py lines 292-299):
the HTTPBearer extraction stage runs first; only when it yields bearer
credentials does get_current_user run. -/
def protected_route (db : List (String × UserInDB)) (authorization : Option Token)
    (now : Nat) : Except HTTPExc User :=
  match authorization with
  | none => Except.error not_authenticated_exception
  | some tok => get_current_user db tok now

/-- Pydantic model Token (src/main.py lines 53-55), the login response body. -/
structure TokenResponse where
  access_token : Token
  token_type : String
deriving DecidableEq, Repr

/-- login (src/main.py lines 275-289). -/
def login (db : List (String × UserInDB)) (username password : String) (now : Nat) :
    Except HTTPExc TokenResponse :=
  match authenticate_user db username password with
  | none =>
    Except.error
      { status_code := 401
        detail := "Incorrect username or password"
        headers := [("WWW-Authenticate", "Bearer")] }
  | some user =>
    let access_token :=
      create_access_token { sub := some (some user.username), exp := none, extra := [] }
        (some (ACCESS_TOKEN_EXPIRE_MINUTES * 60)) now
    Except.ok { access_token := access_token, token_type := "bearer" }

/-- The exp claim of an encoded token, for stating expiry properties. -/
def token_exp : Token → Option Nat
  | Token.jwt c _ _ => c.exp
  | Token.malformed _ => none

/-- The sub claim of an encoded token. -/
def token_sub : Token → Option (Option String)
  | Token.jwt c _ _ => c.sub
  | Token.malformed _ => none

/-- The three Prometheus aggregates of src/main.py lines 45-49: the
REQUEST_COUNT counter family keyed by (method, endpoint, status_code), the
unkeyed REQUEST_DURATION histogram (kept as its list of observations), and
the ACTIVE_CONNECTIONS gauge. -/
structure MetricsState where
  request_count : String × String × Nat → Nat
  request_duration : List Nat
  active_connections : Int

/-- The part of a starlette Request the middleware reads: the HTTP method and
request.url.path, the raw path of the request URL. -/
structure Request where
  method : String
  url_path : String
deriving DecidableEq, Repr

/-- The part of a starlette Response the middleware reads. -/
structure Response where
  status_code : Nat
deriving DecidableEq, Repr

/-- Outcome of `await call_next(request)`: either a response (the normal
case, including error responses such as 404 or 500 produced downstream), or
an exception propagating out of the downstream stack (handler fault or task
cancellation), in which case no response reaches the middleware. -/
inductive Outcome where
  | response (r : Response)
  | exception
deriving DecidableEq, Repr

/-- ACTIVE_CONNECTIONS.inc() (src/main.py line 195). -/
def inc_gauge (s : MetricsState) : MetricsState :=
  { s with active_connections := s.active_connections + 1 }

/-- ACTIVE_CONNECTIONS.dec() (src/main.py line 211, the finally block). -/
def dec_gauge (s : MetricsState) : MetricsState :=
  { s with active_connections := s.active_connections - 1 }

/-- The metric recording of src/main.py lines 201-207: increment
REQUEST_COUNT at exactly the label triple (request.method, request.url.path,
response.status_code) and record the elapsed duration in the unkeyed
REQUEST_DURATION histogram. -/
def record_completion (req : Request) (status_code : Nat) (duration : Nat)
    (s : MetricsState) : MetricsState :=
  { s with
    request_count := fun k =>
      if k = (req.method, req.url_path, status_code) then s.request_count k + 1
      else s.request_count k
    request_duration := duration :: s.request_duration }

/-- track_requests (src/main.py lines 192-211): increment the gauge on
entry; on a response from call_next record completion metrics and return the
response; the finally block decrements the gauge on both exit paths. The
elapsed wall-clock duration is passed in as `duration`. -/
def track_requests (req : Request) (outcome : Outcome) (duration : Nat)
    (s : MetricsState) : MetricsState × Option Response :=
  let s1 := inc_gauge s
  match outcome with
  | Outcome.response r => (dec_gauge (record_completion req r.status_code duration s1), some r)
  | Outcome.exception => (dec_gauge s1, none)

/-- Sequential processing of a list of requests through the middleware,
threading the metrics state; each list entry is the request, its downstream
outcome and its elapsed duration. -/
def run_requests (s : MetricsState) (reqs : List (Request × Outcome × Nat)) : MetricsState :=
  reqs.foldl (fun acc x => (track_requests x.1 x.2.1 x.2.2 acc).1) s

/-- The route table of the FastAPI app (src/main.py lines 215-460): every
registered (method, path) pair. All paths are fixed; no route has a path
parameter, so each route template is literally its path. -/
def app_routes : List (String × String) :=
  [("GET", "/"), ("GET", "/ping"), ("GET", "/health"), ("GET", "/version"),
   ("POST", "/auth/login"), ("GET", "/auth/protected"),
   ("GET", "/deployment/version"), ("GET", "/deployment/blue"),
   ("GET", "/deployment/green"), ("GET", "/load-test/info"),
   ("GET", "/load-test/cpu"), ("GET", "/load-test/memory"),
   ("GET", "/load-test/async"), ("GET", "/metrics"),
   ("GET", "/observability/logs"), ("GET", "/observability/trace"),
   ("GET", "/error/500"), ("GET", "/error/404"), ("GET", "/error/timeout")]

/-- The route template matched by a request, when one matches: since every
route of this app is a fixed path, matching is exact equality and the
template of a matched request is its own path. -/
def matched_route_template (method url_path : String) : Option String :=
  if (method, url_path) ∈ app_routes then some url_path else none

/-- An all-zero metrics state, the state at process start. -/
def init_metrics : MetricsState :=
  { request_count := fun _ => 0, request_duration := [], active_connections := 0 }

/-- The externally visible view of a stored record: exactly the fields of
User, the stored hash stripped. -/
def user_view (u : UserInDB) : User :=
  { username := u.username, email := u.email }

/-- Two user directories that agree on everything except possibly the
stored password hashes: same keys in the same order, same usernames, same
emails. -/
def sameDirectoryView (db1 db2 : List (String × UserInDB)) : Prop :=
  List.Forall₂ (fun a b => a.1 = b.1 ∧ user_view a.2 = user_view b.2) db1 db2

/-! ## Helper lemmas -/

/-- Looking a username up in the concrete directory succeeds only for the
seeded record, whose username field equals its key. -/
lemma get_user_fake (username : String) (u : UserInDB)
    (hu : get_user fake_users_db username = some u) :
    username = "testuser" ∧ u = testuser_record := by
  unfold get_user fake_users_db at hu
  by_cases hx : username = "testuser"
  · subst hx
    exact ⟨rfl, (Option.some.inj (show some testuser_record = some u from hu)).symm⟩
  · have hb : (username == "testuser") = false := by
      simp only [beq_eq_false_iff_ne, ne_eq]
      exact hx
    simp [List.lookup, hb] at hu

/-- A successful decode pins the token down: it was signed with the given
secret and the accepted algorithm, carries exactly the decoded claims, and
any exp claim it has is not in the past. -/
lemma jwt_decode_ok (tok : Token) (secret alg : String) (now : Nat) (c : Claims)
    (h : jwt_decode tok secret [alg] now = Except.ok c) :
    tok = Token.jwt c secret alg ∧ (∀ e, c.exp = some e → now ≤ e) := by
  cases tok with
  | malformed raw => exact absurd h (by simp [jwt_decode])
  | jwt c0 sig alg0 =>
    unfold jwt_decode at h
    dsimp only at h
    by_cases hc : (sig == secret && List.contains [alg] alg0) = true
    · rw [if_pos hc] at h
      have h12 : (sig == secret) = true ∧ (List.contains [alg] alg0) = true := by
        simpa using hc
      obtain ⟨h1, h2⟩ := h12
      have hsig : sig = secret := by simpa using h1
      have halg : alg0 = alg := by simpa using h2
      subst hsig
      subst halg
      cases he : c0.exp with
      | none =>
        rw [he] at h
        simp only [Except.ok.injEq] at h
        subst h
        exact ⟨rfl, fun e hee => absurd (he ▸ hee) (by simp)⟩
      | some e =>
        rw [he] at h
        dsimp only at h
        by_cases hlt : e < now
        · rw [if_pos hlt] at h
          exact absurd h (by simp)
        · rw [if_neg hlt] at h
          simp only [Except.ok.injEq] at h
          subst h
          refine ⟨rfl, fun e2 he2 => ?_⟩
          have : e2 = e := by
            rw [he] at he2
            exact (Option.some.inj he2).symm
          omega
    · rw [if_neg hc] at h
      exact absurd h (by simp)

/-- Characterization of a successful get_current_user run, over any
directory: the token is well signed, unexpired, carries a string subject
that resolves in the directory, and the returned value is the view of the
resolved record. -/
lemma get_current_user_ok_iff (db : List (String × UserInDB)) (tok : Token) (now : Nat)
    (usr : User) :
    get_current_user db tok now = Except.ok usr ↔
      ∃ c username u, tok = Token.jwt c SECRET_KEY ALGORITHM ∧
        (∀ e, c.exp = some e → now ≤ e) ∧
        c.sub = some (some username) ∧ get_user db username = some u ∧
        usr = user_view u := by
  constructor
  · intro h
    unfold get_current_user at h
    cases hd : jwt_decode tok SECRET_KEY [ALGORITHM] now with
    | error je =>
      rw [hd] at h
      exact absurd h (by simp)
    | ok payload =>
      rw [hd] at h
      dsimp only at h
      obtain ⟨htok, hexp⟩ := jwt_decode_ok tok SECRET_KEY ALGORITHM now payload hd
      cases hs : payload.sub with
      | none =>
        rw [hs] at h
        exact absurd h (by simp)
      | some os =>
        rw [hs] at h
        cases os with
        | none => exact absurd h (by simp)
        | some username =>
          dsimp only at h
          cases hu : get_user db username with
          | none =>
            rw [hu] at h
            exact absurd h (by simp)
          | some u =>
            rw [hu] at h
            simp only [Except.ok.injEq] at h
            exact ⟨payload, username, u, htok, hexp, hs, hu, h.symm⟩
  · rintro ⟨c, username, u, htok, hexp, hs, hu, husr⟩
    subst htok
    subst husr
    have hcond : (SECRET_KEY == SECRET_KEY && List.contains [ALGORITHM] ALGORITHM) = true := by
      simp
    have hdec : jwt_decode (Token.jwt c SECRET_KEY ALGORITHM) SECRET_KEY [ALGORITHM] now
        = Except.ok c := by
      unfold jwt_decode
      dsimp only
      rw [if_pos hcond]
      cases he : c.exp with
      | none => rfl
      | some e =>
        have hnlt : ¬ e < now := by
          have := hexp e he
          omega
        dsimp only
        rw [if_neg hnlt]
    unfold get_current_user
    rw [hdec]
    dsimp only
    rw [hs]
    dsimp only
    rw [hu]
    rfl

/-- The view of a looked-up record does not depend on the stored hashes. -/
lemma get_user_view_eq {db1 db2 : List (String × UserInDB)} (h : sameDirectoryView db1 db2)
    (username : String) :
    Option.map user_view (get_user db1 username)
      = Option.map user_view (get_user db2 username) := by
  induction db1 generalizing db2 with
  | nil =>
    cases h
    rfl
  | cons a t1 ih =>
    cases h with
    | cons hab htl =>
      rename_i b t2
      obtain ⟨hk, hv⟩ := hab
      cases a with
      | mk k1 v1 =>
        cases b with
        | mk k2 v2 =>
          simp only at hk hv
          subst hk
          cases hbe : username == k1 with
          | true => simp [get_user, List.lookup, hbe, hv]
          | false =>
            have ht := ih htl
            simpa [get_user, List.lookup, hbe] using ht

/-- One pass through the middleware leaves the gauge at its prior value, on
both exit paths. -/
lemma track_requests_gauge (req : Request) (o : Outcome) (dur : Nat) (s : MetricsState) :
    ((track_requests req o dur s).1).active_connections = s.active_connections := by
  cases o <;>
    simp [track_requests, inc_gauge, dec_gauge, record_completion]

/-- Every error get_current_user can produce is the one credentials
exception, whatever the user directory. -/
lemma get_current_user_error_eq (db : List (String × UserInDB)) (tok : Token) (now : Nat)
    (e : HTTPExc) (h : get_current_user db tok now = Except.error e) :
    e = credentials_exception := by
  unfold get_current_user at h
  cases hd : jwt_decode tok SECRET_KEY [ALGORITHM] now with
  | error je =>
    rw [hd] at h
    simp only [Except.error.injEq] at h
    exact h.symm
  | ok payload =>
    rw [hd] at h
    dsimp only at h
    cases hs : payload.sub with
    | none =>
      rw [hs] at h
      simp only [Except.error.injEq] at h
      exact h.symm
    | some os =>
      rw [hs] at h
      cases os with
      | none =>
        simp only [Except.error.injEq] at h
        exact h.symm
      | some username =>
        dsimp only at h
        cases hu : get_user db username with
        | none =>
          rw [hu] at h
          simp only [Except.error.injEq] at h
          exact h.symm
        | some user =>
          rw [hu] at h
          exact absurd h (by simp)

/-! ## Claim theorems -/

/-- Claim C6: the in-flight gauge is incremented exactly once on entry
(through inc_gauge, which adds one) and decremented exactly once on every
exit path, both the response path and the exception path being the
decrement of the state after the single increment; consequently after any
sequence of completed requests, errored ones included, the gauge is back at
its starting value. -/
theorem C6_gauge_balanced :
    (∀ s, (inc_gauge s).active_connections = s.active_connections + 1) ∧
    (∀ req r dur s, track_requests req (Outcome.response r) dur s
        = (dec_gauge (record_completion req r.status_code dur (inc_gauge s)), some r)) ∧
    (∀ req dur s, track_requests req Outcome.exception dur s = (dec_gauge (inc_gauge s), none)) ∧
    (∀ req o dur s, ((track_requests req o dur s).1).active_connections = s.active_connections) ∧
    (∀ s reqs, (run_requests s reqs).active_connections = s.active_connections) := by
  refine ⟨fun s => rfl, fun req r dur s => rfl, fun req dur s => rfl,
    track_requests_gauge, fun s reqs => ?_⟩
  induction reqs generalizing s with
  | nil => rfl
  | cons x xs ih =>
    have h1 : run_requests s (x :: xs)
        = run_requests ((track_requests x.1 x.2.1 x.2.2 s).1) xs := rfl
    rw [h1, ih, track_requests_gauge]

/-- Claim C9: when call_next raises (no HTTP response is produced inside the
wrapped call), the middleware leaves the completion counter and the latency
histogram untouched for that request, returns no response, and still nets
the in-flight gauge to its prior value through exactly one decrement of the
incremented state. -/
theorem C9_exception_leaves_counters (req : Request) (dur : Nat) (s : MetricsState) :
    ((track_requests req Outcome.exception dur s).1).request_count = s.request_count ∧
    ((track_requests req Outcome.exception dur s).1).request_duration = s.request_duration ∧
    ((track_requests req Outcome.exception dur s).1).active_connections = s.active_connections ∧
    (track_requests req Outcome.exception dur s).2 = none ∧
    (track_requests req Outcome.exception dur s).1 = dec_gauge (inc_gauge s) := by
  refine ⟨rfl, rfl, ?_, rfl, rfl⟩
  simp [track_requests, inc_gauge, dec_gauge]

/-- Claim C8 fails as stated: a call of create_access_token that omits the
expiry delta issues a token whose exp claim is issuance time plus 15
minutes (900 seconds), not plus 30 minutes. -/
theorem C8_counterexample :
    token_exp (create_access_token { sub := none, exp := none, extra := [] } none 0)
      = some 900 ∧ (900 : Nat) ≠ 0 + 30 * 60 := by
  exact ⟨rfl, by decide⟩

/-- Claim C8 amended: when the caller omits the expiry delta (or passes a
zero one, which the truthiness guard treats the same), the exp claim of the
issued token equals issuance time plus the 15-minute default; with a
positive delta it equals issuance time plus that delta; and the login
endpoint passes ACCESS_TOKEN_EXPIRE_MINUTES = 30 minutes explicitly, so
every token it issues expires exactly 30 minutes after issuance. -/
theorem C8_exp_defaults :
    (∀ data now, token_exp (create_access_token data none now) = some (now + 15 * 60)) ∧
    (∀ data now, token_exp (create_access_token data (some 0) now) = some (now + 15 * 60)) ∧
    (∀ data delta now, 0 < delta →
      token_exp (create_access_token data (some delta) now) = some (now + delta)) ∧
    ACCESS_TOKEN_EXPIRE_MINUTES = 30 ∧
    (∀ username password now t, login fake_users_db username password now = Except.ok t →
      token_exp t.access_token = some (now + ACCESS_TOKEN_EXPIRE_MINUTES * 60)) := by
  refine ⟨fun data now => rfl, fun data now => rfl, fun data delta now hd => ?_, rfl,
    fun username password now t ht => ?_⟩
  · have hz : (delta == 0) = false := by
      simp [Nat.pos_iff_ne_zero.mp hd]
    simp [create_access_token, jwt_encode, token_exp, hz]
  · rw [login] at ht
    cases ha : authenticate_user fake_users_db username password with
    | none => rw [ha] at ht; exact absurd ht (by simp)
    | some user =>
      rw [ha] at ht
      simp only [Except.ok.injEq] at ht
      subst ht
      rfl

/-- Witness for C8_exp_defaults at a concrete positive delta and a concrete
successful login. -/
theorem C8_exp_defaults_witness :
    token_exp (create_access_token { sub := none, exp := none, extra := [] } (some 60) 5)
      = some 65 := by
  exact C8_exp_defaults.2.2.1 { sub := none, exp := none, extra := [] } 60 5 (by decide)

/-- Claim C7 fails as stated: for a request to an unregistered path that
still yields a response (the 404 below), the middleware increments a
completion counter keyed by the raw URL path of the request, although no
route matches the request, so no route template exists to key it by. -/
theorem C7_counterexample :
    ((track_requests { method := "GET", url_path := "/nonexistent" }
        (Outcome.response { status_code := 404 }) 1 init_metrics).1).request_count
      ("GET", "/nonexistent", 404) = 1 ∧
    matched_route_template "GET" "/nonexistent" = none := by
  constructor
  · simp [track_requests, inc_gauge, dec_gauge, record_completion, init_metrics]
  · simp [matched_route_template, app_routes]

/-- Claim C7 amended: the middleware increments the completion counter at
exactly the key (HTTP method, raw request URL path, final status code),
leaving every other key untouched, and appends the elapsed duration to the
single unkeyed global latency histogram; since every route of the app is a
fixed path, the raw URL path coincides with the route template whenever the
request matches a registered route. -/
theorem C7_counter_key :
    (∀ req r dur s k, ((track_requests req (Outcome.response r) dur s).1).request_count k
        = (if k = (req.method, req.url_path, r.status_code) then s.request_count k + 1
           else s.request_count k)) ∧
    (∀ req r dur s, ((track_requests req (Outcome.response r) dur s).1).request_duration
        = dur :: s.request_duration) ∧
    (∀ method path, (method, path) ∈ app_routes →
        matched_route_template method path = some path) := by
  refine ⟨fun req r dur s k => rfl, fun req r dur s => rfl, fun method path h => ?_⟩
  simp [matched_route_template, h]

/-- Witness for C7_counter_key at a registered route. -/
theorem C7_counter_key_witness :
    matched_route_template "GET" "/ping" = some "/ping" := by
  exact C7_counter_key.2.2 "GET" "/ping" (by decide)

/-- Claim C3: every token-verification failure, whichever of the four
checks failed, raises the one credentials exception: HTTP status 401 with
identical detail and WWW-Authenticate header, so a caller cannot tell the
failure modes apart. -/
theorem C3_uniform_401 (tok : Token) (now : Nat) (e : HTTPExc)
    (h : get_current_user fake_users_db tok now = Except.error e) :
    e = credentials_exception ∧ e.status_code = 401 ∧
    e.detail = "Could not validate credentials" ∧
    e.headers = [("WWW-Authenticate", "Bearer")] := by
  have he := get_current_user_error_eq fake_users_db tok now e h
  subst he
  exact ⟨rfl, rfl, rfl, rfl⟩

/-- Witness for C3_uniform_401 on a concrete malformed token. -/
theorem C3_uniform_401_witness :
    credentials_exception = credentials_exception ∧
    credentials_exception.status_code = 401 ∧
    credentials_exception.detail = "Could not validate credentials" ∧
    credentials_exception.headers = [("WWW-Authenticate", "Bearer")] := by
  exact C3_uniform_401 (Token.malformed "garbage") 0 credentials_exception rfl

/-- Claim C4: with no Authorization header the HTTPBearer extraction stage
rejects the request with 403 before the token service runs; with bearer
credentials present but failing verification the token service rejects with
401; the two status codes are distinct. -/
theorem C4_extraction_layers :
    (∀ now, protected_route fake_users_db none now
        = Except.error not_authenticated_exception ∧
      not_authenticated_exception.status_code = 403) ∧
    (∀ tok now e, get_current_user fake_users_db tok now = Except.error e →
      protected_route fake_users_db (some tok) now = Except.error e ∧
      e.status_code = 401) ∧
    not_authenticated_exception.status_code ≠ credentials_exception.status_code := by
  refine ⟨fun now => ⟨rfl, rfl⟩, fun tok now e h => ⟨h, ?_⟩, by decide⟩
  have he := get_current_user_error_eq fake_users_db tok now e h
  subst he
  rfl

/-- Witness for C4_extraction_layers: a concrete request with no header and
a concrete request with a garbage bearer token. -/
theorem C4_extraction_layers_witness :
    (protected_route fake_users_db none 0
        = Except.error not_authenticated_exception ∧
      not_authenticated_exception.status_code = 403) ∧
    (protected_route fake_users_db (some (Token.malformed "garbage")) 0
        = Except.error credentials_exception ∧
      credentials_exception.status_code = 401) := by
  exact ⟨C4_extraction_layers.1 0,
    C4_extraction_layers.2.1 (Token.malformed "garbage") 0 credentials_exception rfl⟩

/-- Claim C5: a pair whose username resolves in the directory and whose
password matches the stored bcrypt hash authenticates to the matching
record; any other pair, unknown username or non-matching password alike,
authenticates to nothing, and the login endpoint then answers 401 with the
invalid-credentials detail. -/
theorem C5_authenticate_spec :
    (∀ username password u, get_user fake_users_db username = some u →
      verify_password password u.hashed_password = true →
      authenticate_user fake_users_db username password = some u) ∧
    (∀ username password,
      (∀ u, get_user fake_users_db username = some u →
        verify_password password u.hashed_password = false) →
      authenticate_user fake_users_db username password = none) ∧
    (∀ username password now, authenticate_user fake_users_db username password = none →
      login fake_users_db username password now = Except.error
        { status_code := 401
          detail := "Incorrect username or password"
          headers := [("WWW-Authenticate", "Bearer")] }) := by
  refine ⟨fun username password u hu hv => ?_, fun username password hall => ?_,
    fun username password now ha => ?_⟩
  · unfold authenticate_user
    rw [hu]
    simp [hv]
  · unfold authenticate_user
    cases hu : get_user fake_users_db username with
    | none => rfl
    | some u => simp [hall u hu]
  · unfold login
    rw [ha]

/-- Witness for C5_authenticate_spec: the seeded credentials succeed, a
wrong password is rejected, and the rejected pair gets the 401 login
answer. -/
theorem C5_authenticate_spec_witness :
    authenticate_user fake_users_db "testuser" "testpassword" = some testuser_record ∧
    authenticate_user fake_users_db "testuser" "wrongpassword" = none ∧
    login fake_users_db "nosuchuser" "whatever" 0 = Except.error
      { status_code := 401
        detail := "Incorrect username or password"
        headers := [("WWW-Authenticate", "Bearer")] } := by
  refine ⟨C5_authenticate_spec.1 "testuser" "testpassword" testuser_record rfl rfl,
    C5_authenticate_spec.2.1 "testuser" "wrongpassword" ?_,
    C5_authenticate_spec.2.2 "nosuchuser" "whatever" 0 rfl⟩
  intro u hu
  have hu2 : testuser_record = u :=
    Option.some.inj (show some testuser_record = some u from hu)
  rw [← hu2]
  decide

/-- Claim C2: issuing a token for a username present in the directory with a
positive ttl via create_access_token and verifying it through
get_current_user after strictly less than ttl seconds succeeds and returns
a user carrying the original username. -/
theorem C2_roundtrip (username : String) (u : UserInDB) (ttl now elapsed : Nat)
    (hu : get_user fake_users_db username = some u)
    (httl : 0 < ttl) (helap : elapsed < ttl) :
    get_current_user fake_users_db
        (create_access_token { sub := some (some username), exp := none, extra := [] }
          (some ttl) now) (now + elapsed)
      = Except.ok { username := u.username, email := u.email } ∧
    u.username = username := by
  have hkey : username = "testuser" ∧ u = testuser_record := by
    unfold get_user fake_users_db at hu
    by_cases hx : username = "testuser"
    · subst hx
      exact ⟨rfl, (Option.some.inj (show some testuser_record = some u from hu)).symm⟩
    · have hb : (username == "testuser") = false := by
        simp only [beq_eq_false_iff_ne, ne_eq]
        exact hx
      simp [List.lookup, hb] at hu
  obtain ⟨h1, h2⟩ := hkey
  subst h1
  subst h2
  refine ⟨?_, rfl⟩
  have hne : (ttl == 0) = false := by
    simp only [beq_eq_false_iff_ne, ne_eq]
    omega
  have hlt : ¬ (now + ttl < now + elapsed) := by omega
  simp [get_current_user, jwt_decode, create_access_token, jwt_encode, hne, hlt,
    get_user, fake_users_db, List.lookup]

/-- Witness for C2_roundtrip: the seeded user, a 60 second ttl, immediate
verification. -/
theorem C2_roundtrip_witness :
    get_current_user fake_users_db
        (create_access_token { sub := some (some "testuser"), exp := none, extra := [] }
          (some 60) 0) (0 + 0)
      = Except.ok { username := testuser_record.username, email := testuser_record.email } ∧
    testuser_record.username = "testuser" := by
  exact C2_roundtrip "testuser" testuser_record 60 0 0 rfl (by decide) (by decide)

/-- Claim C1: a presented token is accepted exactly when its signature
verifies under the process secret and algorithm, any exp claim it carries
is not in the past, and its sub claim is present, non-null, and equals the
username of a record in the directory; an accepted token yields the view of
that record, and every rejection is the 401 authentication failure. -/
theorem C1_accept_iff (tok : Token) (now : Nat) :
    ((∃ usr, get_current_user fake_users_db tok now = Except.ok usr) ↔
      (∃ c, tok = Token.jwt c SECRET_KEY ALGORITHM ∧
        (∀ e, c.exp = some e → now ≤ e) ∧
        (∃ username u, c.sub = some (some username) ∧
          get_user fake_users_db username = some u ∧ u.username = username))) ∧
    (∀ usr, get_current_user fake_users_db tok now = Except.ok usr →
      ∃ username u, token_sub tok = some (some username) ∧
        get_user fake_users_db username = some u ∧ usr = user_view u) ∧
    (∀ e, get_current_user fake_users_db tok now = Except.error e →
      e.status_code = 401) := by
  refine ⟨⟨?_, ?_⟩, ?_, ?_⟩
  · rintro ⟨usr, h⟩
    obtain ⟨c, username, u, htok, hexp, hs, hu, husr⟩ :=
      (get_current_user_ok_iff fake_users_db tok now usr).mp h
    obtain ⟨hname, hrec⟩ := get_user_fake username u hu
    subst hname
    subst hrec
    exact ⟨c, htok, hexp, "testuser", testuser_record, hs, hu, rfl⟩
  · rintro ⟨c, htok, hexp, username, u, hs, hu, huname⟩
    exact ⟨user_view u,
      (get_current_user_ok_iff fake_users_db tok now (user_view u)).mpr
        ⟨c, username, u, htok, hexp, hs, hu, rfl⟩⟩
  · intro usr h
    obtain ⟨c, username, u, htok, hexp, hs, hu, husr⟩ :=
      (get_current_user_ok_iff fake_users_db tok now usr).mp h
    subst htok
    exact ⟨username, u, hs, hu, husr⟩
  · intro e h
    rw [get_current_user_error_eq fake_users_db tok now e h]
    rfl

/-- Witness for C1_accept_iff: a well-signed unexpired token for the seeded
user is accepted, and a malformed token is rejected with 401. -/
theorem C1_accept_iff_witness :
    (∃ usr, get_current_user fake_users_db
      (Token.jwt { sub := some (some "testuser"), exp := some 10, extra := [] }
        SECRET_KEY ALGORITHM) 5 = Except.ok usr) ∧
    credentials_exception.status_code = 401 := by
  constructor
  · exact (C1_accept_iff
      (Token.jwt { sub := some (some "testuser"), exp := some 10, extra := [] }
        SECRET_KEY ALGORITHM) 5).1.mpr
      ⟨{ sub := some (some "testuser"), exp := some 10, extra := [] }, rfl,
        fun e he => by
          have h10 : e = 10 := by
            simpa using he.symm
          omega,
        "testuser", testuser_record, rfl, rfl, rfl⟩
  · exact (C1_accept_iff (Token.malformed "garbage") 0).2.2 credentials_exception rfl

/-- Claim C10: the value get_current_user returns carries only the username
and email of the resolved record; the stored password hash never flows into
it. Formally, running the verifier over any two directories that differ
only in their stored hashes gives identical results for every token. -/
theorem C10_no_hash_flow (db1 db2 : List (String × UserInDB)) (tok : Token) (now : Nat)
    (h : sameDirectoryView db1 db2) :
    get_current_user db1 tok now = get_current_user db2 tok now := by
  unfold get_current_user
  cases jwt_decode tok SECRET_KEY [ALGORITHM] now with
  | error e => rfl
  | ok payload =>
    dsimp only
    cases payload.sub with
    | none => rfl
    | some os =>
      cases os with
      | none => rfl
      | some username =>
        dsimp only
        have hv := get_user_view_eq h username
        cases h1 : get_user db1 username with
        | none =>
          cases h2 : get_user db2 username with
          | none => rfl
          | some u2 =>
            rw [h1, h2] at hv
            exact Option.noConfusion hv
        | some u1 =>
          cases h2 : get_user db2 username with
          | none =>
            rw [h1, h2] at hv
            exact Option.noConfusion hv
          | some u2 =>
            rw [h1, h2] at hv
            have hv2 : user_view u1 = user_view u2 :=
              Option.some.inj (show some (user_view u1) = some (user_view u2) from hv)
            exact congrArg Except.ok hv2

/-- Witness for C10_no_hash_flow: the seeded directory against a copy whose
only difference is a different stored hash, on a valid token. -/
theorem C10_no_hash_flow_witness :
    get_current_user fake_users_db
        (Token.jwt { sub := some (some "testuser"), exp := some 10, extra := [] }
          SECRET_KEY ALGORITHM) 5
      = get_current_user
          [("testuser",
            { username := "testuser"
              email := some "test@example.com"
              hashed_password := bcrypt_hashpw "differentpassword" bcrypt_gensalt })]
          (Token.jwt { sub := some (some "testuser"), exp := some 10, extra := [] }
            SECRET_KEY ALGORITHM) 5 := by
  exact C10_no_hash_flow fake_users_db
    [("testuser",
      { username := "testuser"
        email := some "test@example.com"
        hashed_password := bcrypt_hashpw "differentpassword" bcrypt_gensalt })]
    (Token.jwt { sub := some (some "testuser"), exp := some 10, extra := [] }
      SECRET_KEY ALGORITHM) 5
    (List.Forall₂.cons ⟨rfl, rfl⟩ List.Forall₂.nil)

end K8sTest
